import Mathlib

/-!
Verification development for the GxvnsChatApp repository (src/server.py and
src/client.py).  The Python code is shallowly embedded: Python dicts become
association lists with first-match lookup and in-place update, WebSocket
channel handles become natural numbers, and Python exceptions become an
explicit error type.  Global mutable state (the module-level dict
active_connections together with the ChatServer instance fields) is gathered
into a ServerState record that every handler threads explicitly.
-/

namespace GxvnsChat

/-! ## Python dict operations

Keys in the embedded dicts are strings (the code only ever keys its dicts by
username or by group name).  dictInsert models `d[k] = v` (update in place,
preserving position, or append), dictLookup models `d.get(k)` / `k in d`,
and dictErase models `del d[k]`. -/

def dictLookup {α : Type} (k : String) : List (String × α) → Option α
  | [] => none
  | p :: rest => if p.1 = k then some p.2 else dictLookup k rest

def dictInsert {α : Type} (k : String) (v : α) : List (String × α) → List (String × α)
  | [] => [(k, v)]
  | p :: rest => if p.1 = k then (k, v) :: rest else p :: dictInsert k v rest

def dictErase {α : Type} (k : String) : List (String × α) → List (String × α)
  | [] => []
  | p :: rest => if p.1 = k then rest else p :: dictErase k rest

/-! ## Wire envelopes and server state -/

/-- An outbound JSON object.  Each optional field models a key that may or
may not be present in the Python dict (absent key = none). -/
structure Envelope where
  type : String
  success : Option Bool := none
  message : Option String := none
  username : Option String := none
  friends : Option (List String) := none
  group_name : Option String := none
  members : Option (List String) := none
  creator : Option String := none
  friend : Option String := none
  fromUser : Option String := none
  content : Option String := none
  deriving DecidableEq, Repr

/-- One entry of ChatServer.user_data: a dict with keys password and friends
(server.py line 44). -/
structure UserRecord where
  password : String
  friends : List String
  deriving DecidableEq, Repr

/-- A Python exception escaping a handler. -/
inductive PyError where
  | attributeError
  | keyError
  deriving DecidableEq, Repr

/-- The mutable server-side state: the module-level dict active_connections
(server.py line 25, the one every handler actually reads and writes),
ChatServer.user_credentials, ChatServer.user_data, and the groups attribute.
ChatServer.__init__ (lines 29-36) never assigns self.groups, so the groups
field is an Option: none models the attribute being absent, in which case
any access raises AttributeError. -/
structure ServerState where
  active_connections : List (String × Nat)
  user_credentials : List (String × String)
  user_data : List (String × UserRecord)
  groups : Option (List (String × List String))
  deriving DecidableEq, Repr

/-- The state right after ChatServer.__init__ plus load_user_data: no
connections, empty user_credentials (line 31 always starts from an empty
dict), user_data as loaded from disk, and no groups attribute. -/
def initialServerState (loaded : List (String × UserRecord)) : ServerState :=
  { active_connections := []
    user_credentials := []
    user_data := loaded
    groups := none }

/-! ## Response envelopes built by server.py -/

def registerFailEnv : Envelope :=
  { type := "register_response", success := some false,
    message := some "Username already exists" }

def registerOkEnv : Envelope :=
  { type := "register_response", success := some true }

def loginFailEnv : Envelope :=
  { type := "login_response", success := some false,
    message := some "Invalid username or password" }

def loginOkEnv (username : String) (friends : List String) : Envelope :=
  { type := "login_response", success := some true,
    username := some username, friends := some friends }

def userOfflineEnv (username : String) : Envelope :=
  { type := "user_offline", username := some username }

def groupCreatedEnv (group_name : String) (members : List String)
    (creator : Option String) : Envelope :=
  { type := "group_created", group_name := some group_name,
    members := some members, creator := creator }

def friendAddedEnv (friend : String) : Envelope :=
  { type := "friend_added", friend := some friend }

def friendRequestEnv (src : String) : Envelope :=
  { type := "friend_request", fromUser := some src }

/-! ## ChatServer handlers -/

/-- ChatServer.register_user (server.py lines 52-71).  Returns the new state
and the response dict.  The file write in save_user_data is I/O glue and is
not part of the state. -/
def register_user (s : ServerState) (username password : String) :
    ServerState × Envelope :=
  if (dictLookup username s.user_credentials).isSome then
    (s, registerFailEnv)
  else
    ({ s with
        user_credentials := dictInsert username password s.user_credentials,
        user_data :=
          dictInsert username { password := password, friends := [] } s.user_data },
     registerOkEnv)

/-- ChatServer.login_user (server.py lines 73-98).  Returns the new state,
the list of channels on which close() was called (line 87), and either the
response dict or the exception that escaped.  Note that the registry update
on line 91 happens before line 97 reads user_data, so a KeyError there
leaves the registry already mutated. -/
def login_user (s : ServerState) (ws : Nat) (username password : String) :
    ServerState × List Nat × Except PyError Envelope :=
  match dictLookup username s.user_credentials with
  | none => (s, [], .ok loginFailEnv)
  | some stored =>
    if stored ≠ password then (s, [], .ok loginFailEnv)
    else
      let closed := match dictLookup username s.active_connections with
        | some old => [old]
        | none => []
      let s2 := { s with
        active_connections := dictInsert username ws s.active_connections }
      match dictLookup username s2.user_data with
      | none => (s2, closed, .error .keyError)
      | some r => (s2, closed, .ok (loginOkEnv username r.friends))

/-- ChatServer.send_direct_message (server.py lines 106-111): send to the
first registry entry whose key equals the recipient, or to nobody. -/
def send_direct_message (conns : List (String × Nat)) (recipient : String)
    (msg : Envelope) : List (Nat × Envelope) :=
  match dictLookup recipient conns with
  | some ws => [(ws, msg)]
  | none => []

/-- ChatServer.broadcast (server.py lines 100-104): send to every registry
value except the sender, in registry order, with no exception handling.  The
dead argument is the set of channels whose peer has disconnected; sending to
one raises, which aborts the loop.  Returns the deliveries that happened
before the loop ended and whether an exception escaped. -/
def broadcastRun (dead : List Nat) (msg : Envelope) (sender : Option Nat) :
    List (String × Nat) → List (Nat × Envelope) × Bool
  | [] => ([], false)
  | p :: rest =>
    if some p.2 = sender then broadcastRun dead msg sender rest
    else if p.2 ∈ dead then ([], true)
    else
      let out := broadcastRun dead msg sender rest
      ((p.2, msg) :: out.1, out.2)

/-- ChatServer.broadcast_to_group (server.py lines 113-118).  When the
groups attribute is absent, line 115 raises AttributeError.  Otherwise the
member list defaults to [] for an unknown group.  The per-member guard on
line 117 compares the username with self.active_connections.get(sender):
the instance dict self.active_connections is never written anywhere (only
the module-level dict is), so the get returns None and a string never
equals None — no member is ever excluded.  The sender argument is therefore
kept only for call-site fidelity. -/
def broadcast_to_group (s : ServerState) (group_name : String)
    (msg : Envelope) (_sender : Option Nat) :
    Except PyError (List (Nat × Envelope)) :=
  match s.groups with
  | none => .error .attributeError
  | some gs =>
    let group_members := (dictLookup group_name gs).getD []
    .ok (group_members.foldr
      (fun u acc => send_direct_message s.active_connections u msg ++ acc) [])

/-- ChatServer.handle_create_group (server.py lines 130-141).  Line 134
assigns self.groups[group_name] unconditionally; with the attribute absent
this raises AttributeError, otherwise it overwrites any existing group of
that name, then broadcasts group_created to the (new) members. -/
def handle_create_group (s : ServerState) (group_name : String)
    (members : List String) (creator : Option String) :
    Except PyError (ServerState × List (Nat × Envelope)) :=
  match s.groups with
  | none => .error .attributeError
  | some gs =>
    let s2 := { s with groups := some (dictInsert group_name members gs) }
    match broadcast_to_group s2 group_name
        (groupCreatedEnv group_name members creator) none with
    | .error e => .error e
    | .ok sends => .ok (s2, sends)

/-- ChatServer.handle_add_friend (server.py lines 143-158).  The friend must
be a key of user_data; then the requester record is updated, then the friend
record (read after the first update, which matters when the two coincide),
then friend_added is sent to the requester and friend_request to the friend,
each via send_direct_message.  An unknown friend is silently ignored.  A
requester of None (no login yet, endpoint line 214) or one absent from
user_data raises KeyError before any mutation. -/
def handle_add_friend (s : ServerState) (requester : Option String)
    (friend_username : String) :
    Except PyError (ServerState × List (Nat × Envelope)) :=
  if (dictLookup friend_username s.user_data).isSome then
    match requester with
    | none => .error .keyError
    | some req =>
      match dictLookup req s.user_data with
      | none => .error .keyError
      | some reqRec =>
        let ud1 := dictInsert req
          { reqRec with friends := reqRec.friends ++ [friend_username] } s.user_data
        match dictLookup friend_username ud1 with
        | none => .error .keyError
        | some frRec =>
          let ud2 := dictInsert friend_username
            { frRec with friends := frRec.friends ++ [req] } ud1
          let s2 := { s with user_data := ud2 }
          .ok (s2,
            send_direct_message s2.active_connections req
              (friendAddedEnv friend_username) ++
            send_direct_message s2.active_connections friend_username
              (friendRequestEnv req))
  else .ok (s, [])

/-! ## The websocket endpoint (server.py lines 167-234)

Each frame is processed inside a try block whose `except Exception` clause
logs and continues (lines 219-221), so an exception escaping a handler
produces no outbound traffic and does not terminate the session; state
mutated before the raise stays mutated (the handlers above only raise
before mutating). -/

/-- Endpoint branch for a register frame (lines 179-181): the response is
sent to the requesting connection and to nobody else. -/
def handle_register_frame (s : ServerState) (ws : Nat)
    (username password : String) : ServerState × List (Nat × Envelope) :=
  let out := register_user s username password
  (out.1, [(ws, out.2)])

/-- Endpoint branch for a message frame with a group field (lines 195-196):
the frame is forwarded via broadcast_to_group; an exception is swallowed by
the catch-all and nothing is sent. -/
def handle_message_group_frame (s : ServerState) (group : String)
    (data : Envelope) (sender : Nat) : ServerState × List (Nat × Envelope) :=
  match broadcast_to_group s group data (some sender) with
  | .error _ => (s, [])
  | .ok sends => (s, sends)

/-- Endpoint branch for a message frame with neither group nor to
(lines 200-202): ChatServer.broadcast.  The deliveries made before a raise
stand; the raise itself is swallowed by the catch-all, and the registry is
not touched on either path. -/
def handle_message_broadcast_frame (dead : List Nat) (s : ServerState)
    (data : Envelope) (sender : Nat) : ServerState × List (Nat × Envelope) :=
  (s, (broadcastRun dead data (some sender) s.active_connections).1)

/-- Endpoint branch for a create_group frame (lines 210-211) with the
catch-all applied. -/
def handle_create_group_frame (s : ServerState) (group_name : String)
    (members : List String) (creator : Option String) :
    ServerState × List (Nat × Envelope) :=
  match handle_create_group s group_name members creator with
  | .error _ => (s, [])
  | .ok out => out

/-- Endpoint branch for an add_friend frame (lines 213-214) with the
catch-all applied. -/
def handle_add_friend_frame (s : ServerState) (requester : Option String)
    (friend_username : String) : ServerState × List (Nat × Envelope) :=
  match handle_add_friend s requester friend_username with
  | .error _ => (s, [])
  | .ok out => out

/-- Disconnect cleanup in websocket_endpoint (lines 223-230): if the
handler-local username variable is truthy (set by a successful login and
not the empty string) and is a key of the module-level registry, that key is
deleted — whichever channel it currently maps to — and user_offline is
broadcast.  The handler identifies the entry to delete by username alone;
its own channel plays no part. -/
def disconnect_cleanup (username : Option String)
    (conns : List (String × Nat)) : List (String × Nat) × List Envelope :=
  match username with
  | none => (conns, [])
  | some u =>
    if u = "" then (conns, [])
    else if (dictLookup u conns).isSome then
      (dictErase u conns, [userOfflineEnv u])
    else (conns, [])

/-- membersOf accessor over the embedded Group Table. -/
def membersOf (s : ServerState) (group_name : String) : Option (List String) :=
  match s.groups with
  | none => none
  | some gs => dictLookup group_name gs

/-- Whether an Except carries a value, i.e. the Python call returned rather
than raised. -/
def exceptOk {ε α : Type} : Except ε α → Bool
  | .ok _ => true
  | .error _ => false

/-! ## Client side (src/client.py)

The resilience data of ChatClient: the connected flag, the websocket handle
(None while disconnected) and the mutable reconnect_delay field.  GUI
widgets and the inbound chat queue contents are presentation glue; the
status notices pushed onto message_queue are kept because the spec counts
them. -/

/-- A ("STATUS", text, color) tuple put on ChatClient.message_queue. -/
structure Notice where
  text : String
  color : String
  deriving DecidableEq, Repr

structure ClientState where
  connected : Bool
  websocket : Option Nat
  reconnect_delay : Nat
  deriving DecidableEq, Repr

/-- client.py lines 70-72. -/
def minDelay : Nat := 1

/-- client.py line 71: max_reconnect_delay. -/
def maxReconnectDelay : Nat := 30

/-- client.py lines 69-72: websocket None, not connected, delay 1. -/
def initialClientState : ClientState :=
  { connected := false, websocket := none, reconnect_delay := 1 }

def notConnectedNotice : Notice :=
  { text := "Not connected to server. Message will be sent when connected."
    color := "orange" }

/-- ChatClient.send_message (client.py lines 104-121).  Returns the state
afterwards, the status notices put on message_queue, and the contents handed
to the async websocket sender.  The input is stripped; an empty result
returns immediately; when not connected exactly one status notice is
produced and nothing is handed to the sender — the code has no outbound
buffer, so the state carries no trace of the message. -/
def send_message (st : ClientState) (input : String) :
    ClientState × List Notice × List String :=
  let message := input.trim
  if message = "" then (st, [], [])
  else if st.connected = false then (st, [notConnectedNotice], [])
  else (st, [], [message])

/-- ChatClient.send_ws_message (client.py lines 123-148).  sendOk says
whether the transport write succeeded.  On success reconnect_delay is reset
to 1 (line 137); on failure one error notice is produced, connected is
cleared and the websocket is closed and dropped (lines 140-148), with
reconnect_delay untouched. -/
def send_ws_message (st : ClientState) (sendOk : Bool) (content : String) :
    ClientState × List Notice × List String :=
  match st.websocket with
  | none =>
    (st, [{ text := "Not connected to server", color := "red" }], [])
  | some _ =>
    if sendOk then
      ({ st with reconnect_delay := 1 }, [], [content])
    else
      ({ st with connected := false, websocket := none },
       [{ text := "Error sending message", color := "red" }], [])

/-! ## The reconnect loop (ChatClient.websocket_loop, client.py lines 168-231)

One iteration of the outer while either fails to establish the connection
(websockets.connect raises: connectFail) or establishes it, resets
reconnect_delay to 1 on line 194, runs until the connection drops, and falls
through (connectDrop).  Successful sends during a connection also set the
delay to 1 and failed sends leave it alone, so on either event the delay at
the end of the body is determined by the event.  Every iteration then
sleeps the current reconnect_delay (line 230, the scheduled retry) and sets
reconnect_delay to min(delay * 2, 30) (line 231). -/

inductive LoopEvent where
  | connectFail
  | connectDrop
  deriving DecidableEq, Repr

/-- Value of reconnect_delay when the loop body falls through to line 230. -/
def delayAfterBody (d : Nat) : LoopEvent → Nat
  | .connectFail => d
  | .connectDrop => 1

/-- The asyncio.sleep on line 230: how long the retry is postponed. -/
def scheduledRetry (d : Nat) (e : LoopEvent) : Nat := delayAfterBody d e

/-- Line 231: the delay carried into the next iteration. -/
def nextDelay (d : Nat) (e : LoopEvent) : Nat :=
  min (delayAfterBody d e * 2) maxReconnectDelay

/-- reconnect_delay after a sequence of loop iterations. -/
def runLoop : Nat → List LoopEvent → Nat
  | d, [] => d
  | d, e :: es => runLoop (nextDelay d e) es

/-- The sleeps performed by a sequence of loop iterations. -/
def retrySchedule : Nat → List LoopEvent → List Nat
  | _, [] => []
  | d, e :: es => scheduledRetry d e :: retrySchedule (nextDelay d e) es

/-! ## Iteration harness and concrete states used by the theorems below -/

/-- A run of register frames for one username: each element is the
requesting channel and the password offered.  Returns the final state and
the outbound traffic of each request. -/
def registerSeq (s : ServerState) (u : String) :
    List (Nat × String) → ServerState × List (List (Nat × Envelope))
  | [] => (s, [])
  | r :: rest =>
    let out := handle_register_frame s r.1 u r.2
    let tail := registerSeq out.1 u rest
    (tail.1, out.2 :: tail.2)

/-- A small populated server: alice (channel 1) and bob (channel 2) are
registered and connected; one group exists. -/
def wsrv : ServerState :=
  { active_connections := [("alice", 1), ("bob", 2)]
    user_credentials := [("alice", "pw1"), ("bob", "pw2")]
    user_data := [("alice", { password := "pw1", friends := [] }),
                  ("bob", { password := "pw2", friends := [] })]
    groups := some [("g1", ["alice", "bob"])] }

/-- A state whose groups attribute exists and holds an empty table. -/
def c1state : ServerState :=
  { active_connections := [], user_credentials := [], user_data := []
    groups := some [] }

/-- Two connected users, empty group table. -/
def c2state : ServerState :=
  { active_connections := [("alice", 1), ("bob", 2)]
    user_credentials := [], user_data := [], groups := some [] }

/-- A chat message frame as forwarded by the router. -/
def plainMsg : Envelope :=
  { type := "message", username := some "alice", content := some "hi" }

/-- Registry for the broadcast scenario: user a on channel 10, user b on
channel 11. -/
def c3state : ServerState :=
  { active_connections := [("a", 10), ("b", 11)]
    user_credentials := [], user_data := [], groups := none }

/-- alice is registered and connected on channel 1; bob is registered but
has no live session. -/
def c9state : ServerState :=
  { active_connections := [("alice", 1)]
    user_credentials := [("alice", "pa"), ("bob", "pb")]
    user_data := [("alice", { password := "pa", friends := [] }),
                  ("bob", { password := "pb", friends := [] })]
    groups := none }

/-! ## Lemmas about the dict operations -/

theorem dictLookup_dictInsert_self {α : Type} (k : String) (v : α)
    (l : List (String × α)) : dictLookup k (dictInsert k v l) = some v := by
  induction l with
  | nil => simp [dictInsert, dictLookup]
  | cons p rest ih =>
    by_cases h : p.1 = k
    · simp [dictInsert, dictLookup, h]
    · simp [dictInsert, dictLookup, h, ih]

theorem dictLookup_dictInsert_ne {α : Type} {k k2 : String} (v : α)
    (l : List (String × α)) (h : k ≠ k2) :
    dictLookup k (dictInsert k2 v l) = dictLookup k l := by
  have h2 : k2 ≠ k := Ne.symm h
  induction l with
  | nil => simp [dictInsert, dictLookup, h2]
  | cons p rest ih =>
    by_cases hp : p.1 = k2
    · have hpk : p.1 ≠ k := by rw [hp]; exact h2
      simp [dictInsert, dictLookup, hp, hpk, h2]
    · by_cases hk : p.1 = k
      · simp [dictInsert, dictLookup, hp, hk, h]
      · simp [dictInsert, dictLookup, hp, hk, ih]

theorem dictLookup_eq_none_of_not_mem {α : Type} {k : String}
    {l : List (String × α)} (h : k ∉ l.map Prod.fst) : dictLookup k l = none := by
  induction l with
  | nil => simp [dictLookup]
  | cons p rest ih =>
    simp only [List.map_cons, List.mem_cons] at h
    push_neg at h
    have h1 : p.1 ≠ k := fun hh => h.1 hh.symm
    simp [dictLookup, h1, ih h.2]

theorem dictLookup_dictErase_self {α : Type} {k : String}
    {l : List (String × α)} (h : (l.map Prod.fst).Nodup) :
    dictLookup k (dictErase k l) = none := by
  induction l with
  | nil => simp [dictErase, dictLookup]
  | cons p rest ih =>
    simp only [List.map_cons, List.nodup_cons] at h
    by_cases hp : p.1 = k
    · simp only [dictErase, if_pos hp]
      exact dictLookup_eq_none_of_not_mem (hp ▸ h.1)
    · simp [dictErase, dictLookup, hp, ih h.2]

theorem mem_keys_dictInsert {α : Type} {a k : String} {v : α}
    {l : List (String × α)} :
    a ∈ (dictInsert k v l).map Prod.fst ↔ a = k ∨ a ∈ l.map Prod.fst := by
  induction l with
  | nil => simp [dictInsert]
  | cons p rest ih =>
    by_cases hp : p.1 = k
    · simp [dictInsert, hp]
      try tauto
    · simp [dictInsert, hp, ih]
      try tauto

theorem nodup_keys_dictInsert {α : Type} (k : String) (v : α)
    {l : List (String × α)} (h : (l.map Prod.fst).Nodup) :
    ((dictInsert k v l).map Prod.fst).Nodup := by
  induction l with
  | nil => simp [dictInsert]
  | cons p rest ih =>
    simp only [List.map_cons, List.nodup_cons] at h
    by_cases hp : p.1 = k
    · simp only [dictInsert, if_pos hp, List.map_cons, List.nodup_cons]
      exact ⟨hp ▸ h.1, h.2⟩
    · simp only [dictInsert, if_neg hp, List.map_cons, List.nodup_cons]
      refine ⟨?_, ih h.2⟩
      intro hmem
      rcases mem_keys_dictInsert.mp hmem with h1 | h1
      · exact hp h1
      · exact h.1 h1

/-! ## Claim C1 -/

/-- Claim C1 counterexample: over a state whose Group Table exists and is
empty, createGroup of "g" with members a and b succeeds, and a subsequent
createGroup of "g" with member c does not fail — it succeeds as well, and
the membership of "g" afterwards is the singleton c, not a and b. -/
theorem c1_duplicate_create_counterexample :
    exceptOk (handle_create_group c1state "g" ["a", "b"] (some "x")) = true
    ∧ exceptOk (handle_create_group
        (handle_create_group_frame c1state "g" ["a", "b"] (some "x")).1
        "g" ["c"] (some "y")) = true
    ∧ membersOf (handle_create_group_frame
        (handle_create_group_frame c1state "g" ["a", "b"] (some "x")).1
        "g" ["c"] (some "y")).1 "g" = some ["c"] := by
  decide

/-- Claim C1 (amended): whenever the groups attribute is present, a
createGroup for a name that is already taken does not fail — it succeeds
and silently overwrites the membership with the new member list.
Additionally, from the initial server state no createGroup ever succeeds:
handle_create_group raises AttributeError because __init__ never
initializes self.groups, and the endpoint catch-all drops the frame. -/
theorem c1_duplicate_create_overwrites (s : ServerState)
    (gs : List (String × List String)) (gn : String)
    (ms1 ms2 : List String) (cr1 cr2 : Option String)
    (h : s.groups = some gs) :
    exceptOk (handle_create_group s gn ms1 cr1) = true
    ∧ membersOf (handle_create_group_frame s gn ms1 cr1).1 gn = some ms1
    ∧ exceptOk (handle_create_group
        (handle_create_group_frame s gn ms1 cr1).1 gn ms2 cr2) = true
    ∧ membersOf (handle_create_group_frame
        (handle_create_group_frame s gn ms1 cr1).1 gn ms2 cr2).1 gn = some ms2
    ∧ (∀ loaded, handle_create_group (initialServerState loaded) gn ms1 cr1
        = .error .attributeError) := by
  refine ⟨?_, ?_, ?_, ?_, fun loaded => rfl⟩ <;>
    simp [handle_create_group, handle_create_group_frame, broadcast_to_group,
      membersOf, exceptOk, h, dictLookup_dictInsert_self]

/-- Claim C1 witness. -/
theorem c1_duplicate_create_overwrites_witness :
    c1state.groups = some []
    ∧ membersOf (handle_create_group_frame c1state "g" ["a"] none).1 "g"
      = some ["a"] :=
  ⟨rfl,
   (c1_duplicate_create_overwrites c1state [] "g" ["a"] ["z"] none none rfl).2.1⟩

/-! ## Claim C2 -/

/-- Claim C2 counterexample: with the sender connected on channel 1 and the
group "ghost" absent from the (existing, empty) Group Table, routing the
message produces an empty outbound list — zero deliveries but also zero
error Envelopes, not the claimed exactly one GroupNotFound to the sender. -/
theorem c2_unknown_group_counterexample :
    c2state.groups = some []
    ∧ (handle_message_group_frame c2state "ghost" plainMsg 1).2 = [] := by
  decide

/-- Claim C2 (amended): routing a message whose group is not in the Group
Table delivers to zero recipients and produces zero Envelopes — no
GroupNotFound error is sent to the sender or to anyone else.  When the
groups attribute is absent the handler raises AttributeError and the
endpoint catch-all drops the frame, again with no output. -/
theorem c2_unknown_group_silent (s : ServerState) (g : String)
    (data : Envelope) (sender : Nat) :
    (s.groups = none → handle_message_group_frame s g data sender = (s, []))
    ∧ (∀ gs, s.groups = some gs → dictLookup g gs = none →
        handle_message_group_frame s g data sender = (s, [])) := by
  constructor
  · intro h
    simp [handle_message_group_frame, broadcast_to_group, h]
  · intro gs h1 h2
    simp [handle_message_group_frame, broadcast_to_group, h1, h2]

/-- Claim C2 witness. -/
theorem c2_unknown_group_silent_witness :
    c2state.groups = some []
    ∧ handle_message_group_frame c2state "ghost" plainMsg 1 = (c2state, []) :=
  ⟨rfl, (c2_unknown_group_silent c2state "ghost" plainMsg 1).2 [] rfl rfl⟩

/-! ## Claim C3 -/

/-- Helper for C3: iterating ChatServer.broadcast over a registry whose
prefix is live non-sender targets followed by a dead non-sender target
delivers exactly to the prefix and lets the exception escape. -/
theorem broadcastRun_append_dead (dead : List Nat) (data : Envelope)
    (sender : Nat) (u : String) (c : Nat) (post : List (String × Nat))
    (hc : c ∈ dead) (hcs : c ≠ sender) :
    ∀ pre : List (String × Nat), (∀ p ∈ pre, p.2 ∉ dead ∧ p.2 ≠ sender) →
    broadcastRun dead data (some sender) (pre ++ (u, c) :: post)
      = (pre.map (fun p => (p.2, data)), true) := by
  intro pre
  induction pre with
  | nil =>
    intro _
    simp [broadcastRun, hcs, hc]
  | cons p rest ih =>
    intro hpre
    have hp := hpre p (List.mem_cons_self p rest)
    have hrest := ih (fun q hq => hpre q (List.mem_cons_of_mem p hq))
    simp [broadcastRun, hp.1, hp.2, hrest]

/-- Claim C3 counterexample: in the registry [(a, 10), (b, 11)] with the
peer of channel 10 disconnected and the sender on channel 5, the fan-out
delivers nothing at all — the live target b receives nothing — and a is
still in the registry afterwards: the send failure was not caught
per-target, no remove happened, and delivery to the remaining target did
not occur. -/
theorem c3_broadcast_abort_counterexample :
    handle_message_broadcast_frame [10] c3state plainMsg 5 = (c3state, [])
    ∧ dictLookup "a" c3state.active_connections = some 10 := by
  decide

/-- Claim C3 (amended): in ChatServer.broadcast — the fan-out the router
actually uses — a send to a channel whose peer has disconnected raises an
exception that is not caught per-target: targets before the dead one in
registry order have received the message, every target after it receives
nothing, remove is never called, and the endpoint catch-all leaves the
registry unchanged, so the failed username is still registered afterwards.
(The module-level helper broadcast_message on lines 236-253 implements the
claimed per-target catch and cleanup, but no code path calls it.) -/
theorem c3_broadcast_abort (dead : List Nat) (pre : List (String × Nat))
    (u : String) (c : Nat) (post : List (String × Nat)) (s : ServerState)
    (data : Envelope) (sender : Nat)
    (hconns : s.active_connections = pre ++ (u, c) :: post)
    (hpre : ∀ p ∈ pre, p.2 ∉ dead ∧ p.2 ≠ sender)
    (hc : c ∈ dead) (hcs : c ≠ sender) :
    broadcastRun dead data (some sender) s.active_connections
      = (pre.map (fun p => (p.2, data)), true)
    ∧ handle_message_broadcast_frame dead s data sender
      = (s, pre.map (fun p => (p.2, data))) := by
  have hrun := broadcastRun_append_dead dead data sender u c post hc hcs pre hpre
  rw [hconns]
  constructor
  · exact hrun
  · simp [handle_message_broadcast_frame, hconns, hrun]

/-- Claim C3 witness. -/
theorem c3_broadcast_abort_witness :
    broadcastRun [10] plainMsg (some 5) c3state.active_connections
      = ([], true) :=
  (c3_broadcast_abort [10] [] "a" 10 [("b", 11)] c3state plainMsg 5 rfl
    (by simp) (by decide) (by decide)).1

/-! ## Claim C4 -/

/-- Claim C4: for a user u already holding a Session, a successful login of
u on a new channel closes the old channel exactly once (the close list is
exactly the singleton of the old channel), stores the new Session, and
lookup of u afterwards returns the new channel; two successive successful
logins for u leave only the second channel registered for u. -/
theorem c4_login_supersedes (s : ServerState) (u pw : String) (r : UserRecord)
    (oldCh ws1 ws2 : Nat)
    (hcred : dictLookup u s.user_credentials = some pw)
    (hud : dictLookup u s.user_data = some r)
    (hconn : dictLookup u s.active_connections = some oldCh) :
    (login_user s ws1 u pw).2.1 = [oldCh]
    ∧ (login_user s ws1 u pw).2.2 = .ok (loginOkEnv u r.friends)
    ∧ dictLookup u (login_user s ws1 u pw).1.active_connections = some ws1
    ∧ (login_user (login_user s ws1 u pw).1 ws2 u pw).2.1 = [ws1]
    ∧ dictLookup u
        (login_user (login_user s ws1 u pw).1 ws2 u pw).1.active_connections
      = some ws2 := by
  have h1 : login_user s ws1 u pw =
      ({ s with active_connections := dictInsert u ws1 s.active_connections },
       [oldCh], .ok (loginOkEnv u r.friends)) := by
    simp [login_user, hcred, hconn, hud]
  have h2 : login_user
      ({ s with active_connections := dictInsert u ws1 s.active_connections })
      ws2 u pw =
      ({ s with active_connections :=
          dictInsert u ws2 (dictInsert u ws1 s.active_connections) },
       [ws1], .ok (loginOkEnv u r.friends)) := by
    simp [login_user, hcred, hud, dictLookup_dictInsert_self]
  rw [h1]
  simp [h2, dictLookup_dictInsert_self]

/-- Claim C4 witness. -/
theorem c4_login_supersedes_witness :
    (login_user wsrv 9 "alice" "pw1").2.1 = [1]
    ∧ dictLookup "alice"
        (login_user (login_user wsrv 9 "alice" "pw1").1
          10 "alice" "pw1").1.active_connections
      = some 10 :=
  ⟨(c4_login_supersedes wsrv "alice" "pw1" { password := "pw1", friends := [] }
      1 9 10 (by decide) (by decide) (by decide)).1,
   (c4_login_supersedes wsrv "alice" "pw1" { password := "pw1", friends := [] }
      1 9 10 (by decide) (by decide) (by decide)).2.2.2.2⟩

/-! ## Claim C5 -/

/-- Helper for C5: once the username is taken, every further register
request for it leaves the state untouched and answers the requesting
channel, and only it, with the failure envelope. -/
theorem registerSeq_taken (u q : String) :
    ∀ (reqs : List (Nat × String)) (s : ServerState),
    dictLookup u s.user_credentials = some q →
    registerSeq s u reqs = (s, reqs.map (fun r => [(r.1, registerFailEnv)])) := by
  intro reqs
  induction reqs with
  | nil =>
    intro s h
    simp [registerSeq]
  | cons r rest ih =>
    intro s h
    have hfail : handle_register_frame s r.1 u r.2 = (s, [(r.1, registerFailEnv)]) := by
      simp [handle_register_frame, register_user, h]
    simp [registerSeq, hfail, ih s h]

/-- Claim C5: in any run of register requests sharing the same username u,
only the first succeeds; each later one answers its own requesting channel
— a single envelope, never a broadcast — with the failure response, the
stored credentials for u stay the password of the first request, and the
state after the run equals the state right after the first request. -/
theorem c5_register_unique (s : ServerState) (u : String) (ws : Nat)
    (p : String) (reqs : List (Nat × String))
    (h : dictLookup u s.user_credentials = none) :
    (registerSeq s u ((ws, p) :: reqs)).2
      = [(ws, registerOkEnv)] :: reqs.map (fun r => [(r.1, registerFailEnv)])
    ∧ dictLookup u (registerSeq s u ((ws, p) :: reqs)).1.user_credentials
      = some p
    ∧ (registerSeq s u ((ws, p) :: reqs)).1 = (handle_register_frame s ws u p).1 := by
  have hok : handle_register_frame s ws u p =
      ({ s with
          user_credentials := dictInsert u p s.user_credentials,
          user_data :=
            dictInsert u { password := p, friends := [] } s.user_data },
       [(ws, registerOkEnv)]) := by
    simp [handle_register_frame, register_user, h]
  have hmem : dictLookup u (dictInsert u p s.user_credentials) = some p :=
    dictLookup_dictInsert_self u p s.user_credentials
  have hrest := registerSeq_taken u p reqs
    ({ s with
        user_credentials := dictInsert u p s.user_credentials,
        user_data := dictInsert u { password := p, friends := [] } s.user_data })
    hmem
  simp [registerSeq, hok, hrest, hmem]

/-- Claim C5 witness. -/
theorem c5_register_unique_witness :
    dictLookup "carol" (initialServerState []).user_credentials = none
    ∧ (registerSeq (initialServerState []) "carol" [(3, "s3cret"), (4, "oth")]).2
      = [(3, registerOkEnv)]
        :: [(4, "oth")].map (fun r => [(r.1, registerFailEnv)]) :=
  ⟨rfl,
   (c5_register_unique (initialServerState []) "carol" 3 "s3cret"
      [(4, "oth")] rfl).1⟩

/-! ## Claim C6 -/

/-- Helper for C6: the loop keeps reconnect_delay within the bounds. -/
theorem runLoop_bounds : ∀ (es : List LoopEvent) (d : Nat),
    minDelay ≤ d → d ≤ maxReconnectDelay →
    minDelay ≤ runLoop d es ∧ runLoop d es ≤ maxReconnectDelay := by
  intro es
  induction es with
  | nil =>
    intro d h1 h2
    exact ⟨h1, h2⟩
  | cons e es ih =>
    intro d h1 h2
    have hb : minDelay ≤ nextDelay d e ∧ nextDelay d e ≤ maxReconnectDelay := by
      cases e <;>
        simp only [nextDelay, delayAfterBody, minDelay, maxReconnectDelay]
          at h1 h2 ⊢ <;>
        omega
    exact ih (nextDelay d e) hb.1 hb.2

/-- Claim C6: starting from minDelay, the backoff delay stays within
[minDelay, maxReconnectDelay] over every sequence of loop iterations; three
consecutive failed connection attempts from 1s sleep 1s, 2s and 4s; a
failed connection attempt doubles the delay capped at the maximum; the
iteration of a connection that succeeded and later dropped schedules its
retry after minDelay regardless of the previous delay; and a successful
websocket send resets reconnect_delay to minDelay. -/
theorem c6_backoff (st : ClientState) (content : String)
    (hws : st.websocket.isSome = true) :
    (∀ es : List LoopEvent,
      minDelay ≤ runLoop minDelay es ∧ runLoop minDelay es ≤ maxReconnectDelay)
    ∧ retrySchedule minDelay
        [LoopEvent.connectFail, LoopEvent.connectFail, LoopEvent.connectFail]
      = [1, 2, 4]
    ∧ (∀ d, nextDelay d LoopEvent.connectFail = min (d * 2) maxReconnectDelay)
    ∧ (∀ d, scheduledRetry d LoopEvent.connectDrop = minDelay)
    ∧ (send_ws_message st true content).1.reconnect_delay = minDelay := by
  refine ⟨?_, by decide, fun d => rfl, fun d => rfl, ?_⟩
  · intro es
    exact runLoop_bounds es minDelay (le_refl _) (by decide)
  · rcases Option.isSome_iff_exists.mp hws with ⟨w, hw⟩
    simp [send_ws_message, hw, minDelay]

/-- Claim C6 witness. -/
theorem c6_backoff_witness :
    ({ connected := true, websocket := some 4, reconnect_delay := 17 }
      : ClientState).websocket.isSome = true
    ∧ (send_ws_message
        { connected := true, websocket := some 4, reconnect_delay := 17 }
        true "hi").1.reconnect_delay = minDelay :=
  ⟨rfl,
   (c6_backoff { connected := true, websocket := some 4, reconnect_delay := 17 }
      "hi" rfl).2.2.2.2⟩

/-! ## Claim C7 -/

/-- Claim C7: an outbound send attempted while the client is not connected
fails fast: the client state is returned unchanged (the code has no
outbound buffer, so nothing is queued and no later transition can send the
message), nothing is handed to the websocket sender, and at most one status
notice is produced — exactly the not-connected notice when the stripped
input is nonempty. -/
theorem c7_send_not_connected (st : ClientState) (input : String)
    (h : st.connected = false) :
    (send_message st input).1 = st
    ∧ (send_message st input).2.2 = []
    ∧ (send_message st input).2.1.length ≤ 1
    ∧ (input.trim ≠ "" → (send_message st input).2.1 = [notConnectedNotice]) := by
  by_cases he : input.trim = "" <;> simp [send_message, he, h]

/-- Claim C7 witness. -/
theorem c7_send_not_connected_witness :
    initialClientState.connected = false
    ∧ (send_message initialClientState "hello").2.2 = []
    ∧ (send_message initialClientState "hello").1 = initialClientState :=
  ⟨rfl, (c7_send_not_connected initialClientState "hello" rfl).2.1,
   (c7_send_not_connected initialClientState "hello" rfl).1⟩

/-! ## Claim C8 -/

/-- Claim C8: a failed login does not reveal whether the username exists —
the response for an unknown username and the response for a known username
with a wrong password are the same envelope, success false with the message
Invalid username or password. -/
theorem c8_login_failure_indistinguishable (s : ServerState)
    (ws1 ws2 : Nat) (u1 u2 p1 p2 pw : String)
    (h1 : dictLookup u1 s.user_credentials = none)
    (h2 : dictLookup u2 s.user_credentials = some pw)
    (h3 : pw ≠ p2) :
    (login_user s ws1 u1 p1).2.2 = (login_user s ws2 u2 p2).2.2
    ∧ (login_user s ws1 u1 p1).2.2 = .ok loginFailEnv := by
  simp [login_user, h1, h2, h3]

/-- Claim C8 witness. -/
theorem c8_login_failure_indistinguishable_witness :
    dictLookup "carol" wsrv.user_credentials = none
    ∧ (login_user wsrv 7 "carol" "x").2.2 = (login_user wsrv 8 "alice" "bad").2.2 :=
  ⟨rfl,
   (c8_login_failure_indistinguishable wsrv 7 8 "carol" "alice" "x" "bad" "pw1"
      rfl rfl (by decide)).1⟩

/-! ## Claim C9 -/

/-- Claim C9 counterexample: bob is a known username (a key of user_data)
but has no live session; the add_friend request from alice succeeds and the
outbound list is exactly the single friend_added to the channel of alice —
bob receives no friend_request Envelope, contrary to the claim. -/
theorem c9_add_friend_counterexample :
    dictLookup "bob" c9state.user_data
      = some { password := "pb", friends := [] }
    ∧ (handle_add_friend_frame c9state (some "alice") "bob").2
      = [(1, friendAddedEnv "bob")] := by
  decide

/-- Claim C9 (amended): for an add_friend request from registered user a
naming a known target b distinct from a, the friend lists are updated
symmetrically — friendsOf a gains b and friendsOf b gains a; the
friend_added notification reaches a only if a has a live session and the
friend_request reaches b only if b has a live session, a notification
addressed to a user without a session being silently dropped; a request
naming an unknown target changes nothing and produces no Envelope. -/
theorem c9_add_friend_symmetric (s : ServerState) (req friend : String)
    (rr fr : UserRecord)
    (hr : dictLookup req s.user_data = some rr)
    (hf : dictLookup friend s.user_data = some fr)
    (hne : req ≠ friend) :
    dictLookup req (handle_add_friend_frame s (some req) friend).1.user_data
      = some { rr with friends := rr.friends ++ [friend] }
    ∧ dictLookup friend (handle_add_friend_frame s (some req) friend).1.user_data
      = some { fr with friends := fr.friends ++ [req] }
    ∧ (handle_add_friend_frame s (some req) friend).2
      = send_direct_message s.active_connections req (friendAddedEnv friend)
        ++ send_direct_message s.active_connections friend (friendRequestEnv req)
    ∧ (∀ (t : ServerState) (r2 : Option String) (f2 : String),
        dictLookup f2 t.user_data = none →
        handle_add_friend_frame t r2 f2 = (t, [])) := by
  have hf1 : dictLookup friend
      (dictInsert req { rr with friends := rr.friends ++ [friend] } s.user_data)
      = some fr := by
    rw [dictLookup_dictInsert_ne _ _ (Ne.symm hne)]
    exact hf
  have hmain : handle_add_friend_frame s (some req) friend =
      ({ s with user_data :=
          (dictInsert friend { fr with friends := fr.friends ++ [req] }
            (dictInsert req { rr with friends := rr.friends ++ [friend] }
              s.user_data)) },
       send_direct_message s.active_connections req (friendAddedEnv friend)
         ++ send_direct_message s.active_connections friend (friendRequestEnv req)) := by
    simp [handle_add_friend_frame, handle_add_friend, hr, hf, hf1]
  refine ⟨?_, ?_, ?_, ?_⟩
  · rw [hmain]
    simp [dictLookup_dictInsert_ne _ _ hne, dictLookup_dictInsert_self]
  · rw [hmain]
    simp [dictLookup_dictInsert_self]
  · rw [hmain]
  · intro t r2 f2 h0
    simp [handle_add_friend_frame, handle_add_friend, h0]

/-- Claim C9 witness. -/
theorem c9_add_friend_symmetric_witness :
    dictLookup "alice" c9state.user_data
      = some { password := "pa", friends := [] }
    ∧ dictLookup "bob"
        (handle_add_friend_frame c9state (some "alice") "bob").1.user_data
      = some { password := "pb", friends := ["alice"] } :=
  ⟨rfl, by
    have h := c9_add_friend_symmetric c9state "alice" "bob"
      { password := "pa", friends := [] } { password := "pb", friends := [] }
      rfl rfl (by decide)
    simpa using h.2.1⟩

/-! ## Claim C10 -/

/-- Claim C10: disconnect cleanup is keyed on username alone.  After user u
logs in on a stale channel and then again on a new channel (supersession),
the registry maps u to the new channel; when the stale handler runs its
disconnect cleanup it deletes the entry of u — the live session — even
though the channel stored there is not the one that disconnected (the
cleanup never consults channel identity). -/
theorem c10_cleanup_keyed_on_username (s : ServerState) (u pw : String)
    (r : UserRecord) (staleCh newCh : Nat)
    (hu : u ≠ "")
    (hcred : dictLookup u s.user_credentials = some pw)
    (hud : dictLookup u s.user_data = some r)
    (hnd : (s.active_connections.map Prod.fst).Nodup) :
    dictLookup u
      (login_user (login_user s staleCh u pw).1 newCh u pw).1.active_connections
      = some newCh
    ∧ dictLookup u
        (disconnect_cleanup (some u)
          (login_user (login_user s staleCh u pw).1
            newCh u pw).1.active_connections).1
      = none := by
  have h1 : (login_user s staleCh u pw).1
      = { s with active_connections := dictInsert u staleCh s.active_connections } := by
    simp [login_user, hcred, hud]
  have h2 : (login_user
      ({ s with active_connections := dictInsert u staleCh s.active_connections })
      newCh u pw).1
      = { s with active_connections :=
          dictInsert u newCh (dictInsert u staleCh s.active_connections) } := by
    simp [login_user, hcred, hud, dictLookup_dictInsert_self]
  rw [h1, h2]
  have hlook : dictLookup u
      (dictInsert u newCh (dictInsert u staleCh s.active_connections))
      = some newCh :=
    dictLookup_dictInsert_self u newCh _
  have hnd2 : ((dictInsert u newCh
      (dictInsert u staleCh s.active_connections)).map Prod.fst).Nodup :=
    nodup_keys_dictInsert u newCh (nodup_keys_dictInsert u staleCh hnd)
  refine ⟨hlook, ?_⟩
  simp only [disconnect_cleanup, if_neg hu, hlook, Option.isSome_some, if_true]
  exact dictLookup_dictErase_self hnd2

/-- Claim C10 witness. -/
theorem c10_cleanup_keyed_on_username_witness :
    dictLookup "alice"
      (login_user (login_user wsrv 20 "alice" "pw1").1
        21 "alice" "pw1").1.active_connections
      = some 21
    ∧ dictLookup "alice"
        (disconnect_cleanup (some "alice")
          (login_user (login_user wsrv 20 "alice" "pw1").1
            21 "alice" "pw1").1.active_connections).1
      = none :=
  c10_cleanup_keyed_on_username wsrv "alice" "pw1"
    { password := "pw1", friends := [] } 20 21 (by decide) rfl rfl (by decide)

end GxvnsChat
